import Mathlib

/-!
Verification of the attribute model of `stty.py` (class `Stty` and the
module-level attribute catalog), shallowly embedded in Lean 4.

The embedding fixes the platform to Linux/glibc, the platform the probed
`termios` constants are taken from: every `hasattr(termios, ...)` probe in
the source succeeds for exactly the names listed below, with the numeric
values of the Linux `termios` module.  Python integers are `Int`, `bytes`
objects are `List Nat` (each element a byte value), the raw termios
attribute list `[iflag, oflag, cflag, lflag, ispeed, ospeed, cc]` is a
record of a six-element word list plus the control-character array, and a
`Stty` object is its two raw blocks plus its instance attribute dictionary
(the cached symbolic values written by `super().__setattr__`).

Exceptions are modelled structurally: each distinct `raise` site in the
source gets one `PyErr` constructor.  A mutating method returns the final
state together with the exception it propagates, so that atomicity
("raises and leaves the object unchanged") is a real statement about the
embedding rather than an artifact of purity.
-/

/-- A Python runtime value, restricted to the shapes the attribute model
handles: booleans, integers, strings, bytes objects and `None`. -/
inductive PyVal where
  | bool (b : Bool)
  | int (n : Int)
  | str (s : String)
  | bytes (bs : List Nat)
  | none
  deriving DecidableEq, Repr

/-- Python truthiness (`if value:`): `False`/`0`/`""`/`b""`/`None` are
falsy, everything else is truthy. -/
def pyTruthy : PyVal → Bool
  | .bool b => b
  | .int n => n != 0
  | .str s => s ≠ ""
  | .bytes bs => bs ≠ []
  | .none => false

/-- `isinstance(value, int)`.  Python's `bool` is a subclass of `int`, so
boolean values pass this check too. -/
def pyIsInt : PyVal → Bool
  | .bool _ => true
  | .int _ => true
  | _ => false

/-- The integer a `pyIsInt` value stands for (`True == 1`, `False == 0`). -/
def pyToInt : PyVal → Int
  | .bool b => if b then 1 else 0
  | .int n => n
  | _ => 0

/-- `isinstance(value, bytes)`. -/
def pyIsBytes : PyVal → Bool
  | .bytes _ => true
  | _ => false

/-- Python `a & ~m` on arbitrary-precision integers.  Because the bits of
`a &&& m` are exactly the bits `a` shares with `m`, and bit patterns with
no common bits add without carries, `a & ~m = a - (a &&& m)` for every
pair of integers; this form is used because it evaluates in the kernel. -/
def pyAndNot (a m : Int) : Int := a - Int.land a m

/-- Python `a | b`. -/
def pyOr (a b : Int) : Int := Int.lor a b

/-- Python `bytes([n])`: a one-byte bytes object, or the `ValueError`
("bytes must be in range(0, 256)") signalled by `none` when `n` is not a
byte value. -/
def pyBytesSingleton (n : Int) : Option (List Nat) :=
  if 0 ≤ n ∧ n < 256 then some [n.toNat] else none

/-- Insert-or-replace on a Python dictionary modelled as an association
list: `d[k] = v`. -/
def dictSet (c : List (String × PyVal)) (k : String) (v : PyVal) :
    List (String × PyVal) :=
  match c with
  | [] => [(k, v)]
  | (k', v') :: rest =>
    if k' = k then (k, v) :: rest else (k', v') :: dictSet rest k v

/-- Dictionary lookup `d.get(k)`. -/
def dictGet (c : List (String × PyVal)) (k : String) : Option PyVal :=
  match c with
  | [] => Option.none
  | (k', v') :: rest => if k' = k then some v' else dictGet rest k

/-! ## The attribute catalog (module-level dictionaries of `stty.py`)

Each `_bool_d` entry is `(lowercase name, flag-word index, mask)`, the
result of the `hasattr` probe loop over `_ifbool`/`_ofbool`/`_cfbool`/
`_lfbool` on Linux; indices `0..3` are `_IFLAG`, `_OFLAG`, `_CFLAG`,
`_LFLAG` as in the source. -/

def _bool_d : List (String × Nat × Int) :=
  [("ignbrk", 0, 1), ("brkint", 0, 2), ("ignpar", 0, 4), ("parmrk", 0, 8),
   ("inpck", 0, 16), ("istrip", 0, 32), ("inlcr", 0, 64), ("igncr", 0, 128),
   ("icrnl", 0, 256), ("iuclc", 0, 512), ("ixon", 0, 1024), ("ixany", 0, 2048),
   ("ixoff", 0, 4096), ("imaxbel", 0, 8192),
   ("opost", 1, 1), ("olcuc", 1, 2), ("onlcr", 1, 4), ("ocrnl", 1, 8),
   ("onocr", 1, 16), ("onlret", 1, 32), ("ofill", 1, 64), ("ofdel", 1, 128),
   ("cstopb", 2, 64), ("cread", 2, 128), ("parenb", 2, 256), ("parodd", 2, 512),
   ("hupcl", 2, 1024), ("clocal", 2, 2048), ("cibaud", 2, 269418496),
   ("crtscts", 2, 2147483648),
   ("isig", 3, 1), ("icanon", 3, 2), ("xcase", 3, 4), ("echo", 3, 8),
   ("echoe", 3, 16), ("echok", 3, 32), ("echonl", 3, 64), ("echoctl", 3, 512),
   ("echoprt", 3, 1024), ("echoke", 3, 2048), ("flusho", 3, 4096),
   ("noflsh", 3, 128), ("tostop", 3, 256), ("pendin", 3, 16384),
   ("iexten", 3, 32768)]

/-- `_num_d`: `(lowercase mask name, flag-word index, group mask, value
table raw-integer-to-symbolic-name)` for `CSIZE` and the delay groups, in
the insertion order of the source's probe loop over `_cs` then `_dly`. -/
def _num_d : List (String × Nat × Int × List (Int × String)) :=
  [("csize", 2, 48, [(0, "cs5"), (16, "cs6"), (32, "cs7"), (48, "cs8")]),
   ("crdly", 1, 1536, [(0, "cr0"), (512, "cr1"), (1024, "cr2"), (1536, "cr3")]),
   ("nldly", 1, 256, [(0, "nl0"), (256, "nl1")]),
   ("tabdly", 1, 6144, [(0, "tab0"), (2048, "tab1"), (4096, "tab2"), (6144, "tab3")]),
   ("bsdly", 1, 8192, [(0, "bs0"), (8192, "bs1")]),
   ("ffdly", 1, 32768, [(0, "ff0"), (32768, "ff1")]),
   ("vtdly", 1, 16384, [(0, "vt0"), (16384, "vt1")])]

/-- `_baud_d`: numeric Baud rate to the Linux `B...` constant. -/
def _baud_d : List (Int × Int) :=
  [(0, 0), (50, 1), (75, 2), (110, 3), (134, 4), (150, 5), (200, 6),
   (300, 7), (600, 8), (1200, 9), (1800, 10), (2400, 11), (4800, 12),
   (9600, 13), (19200, 14), (38400, 15), (57600, 4097), (115200, 4098),
   (230400, 4099), (460800, 4100), (500000, 4101), (576000, 4102),
   (921600, 4103), (1000000, 4104), (1152000, 4105), (1500000, 4106),
   (2000000, 4107), (2500000, 4108), (3000000, 4109), (3500000, 4110),
   (4000000, 4111)]

/-- `_baud_d_inverse = {v: k for k, v in _baud_d.items()}`. -/
def _baud_d_inverse : List (Int × Int) := _baud_d.map (fun p => (p.2, p.1))

/-- `_cc_d`: control-character attribute name to index in the `cc` array,
in the iteration order of the source's `_cc` list (Linux `V...` values;
`VERASE2`, `VDSUSP` and `VSTATUS` are not defined on Linux so the probe
drops them, while `VSWTCH` is defined — CPython's termios module aliases
it to `VSWTC` = 7 — so `swtch`, last in `_cc`, is kept). -/
def _cc_d : List (String × Nat) :=
  [("eof", 4), ("eol", 11), ("eol2", 16), ("erase", 2), ("werase", 14),
   ("kill", 3), ("reprint", 12), ("intr", 0), ("quit", 1), ("susp", 10),
   ("start", 8), ("stop", 9), ("lnext", 15), ("discard", 13), ("swtch", 7)]

/-- `_noncanon_d = {"min": termios.VMIN, "time": termios.VTIME}`. -/
def _noncanon_d : List (String × Nat) := [("min", 6), ("time", 5)]

/-- `_speed_d = {"ispeed": _ISPEED, "ospeed": _OSPEED}`. -/
def _speed_d : List (String × Nat) := [("ispeed", 4), ("ospeed", 5)]

/-- `_winsz_d = {"rows": _ROWS, "cols": _COLS}`; `_HAVE_WINSZ` holds on
Linux. -/
def _winsz_d : List (String × Nat) := [("rows", 0), ("cols", 1)]

/-- `_available`: lowercase names of all attributes available on the
platform, in the source's splice order. -/
def _available : List String :=
  _bool_d.map Prod.fst ++ _num_d.map Prod.fst ++ _speed_d.map Prod.fst ++
  _cc_d.map Prod.fst ++ _noncanon_d.map Prod.fst ++ _winsz_d.map Prod.fst

/-! ## Raw blocks and the `Stty` object -/

/-- The raw termios attribute block, Python's
`[iflag, oflag, cflag, lflag, ispeed, ospeed, cc]`: positions `0..5` are
the `words` list, position `_CC = 6` is the control-character array of
one-byte bytes objects. -/
structure TermiosRec where
  words : List Int
  cc : List (List Nat)
  deriving DecidableEq, Repr

/-- Read `self._termios[i]` for `i ≤ 5`. -/
def TermiosRec.getWord (t : TermiosRec) (i : Nat) : Int := (t.words[i]?).getD 0

/-- Write `self._termios[i] = v` for `i ≤ 5`. -/
def TermiosRec.setWord (t : TermiosRec) (i : Nat) (v : Int) : TermiosRec :=
  { t with words := t.words.set i v }

/-- A `Stty` object: the raw attribute block, the raw window-size block
(`[rows, cols]`, mutable as after `load`; `_HAVE_WINSZ` holds on Linux),
and the instance attribute dictionary holding the cached symbolic values
(the target of every `super().__setattr__(name, value)` call). -/
structure Stty where
  _termios : TermiosRec
  _winsize : List Int
  cache : List (String × PyVal)
  deriving DecidableEq, Repr

/-- One constructor per distinct `raise` site of the source; the payload
is the data interpolated into the exception message. -/
inductive PyErr where
  /-- `AttributeError: attribute '{name}' must not be directly modified`. -/
  | attrProtected (name : String)
  /-- `TypeError: value of attribute '{name}' must have type 'int'`. -/
  | typeErrorInt (name : String)
  /-- `TypeError: value of attribute '{name}' must have type 'bytes'`. -/
  | typeErrorBytes (name : String)
  /-- `ValueError: unsupported value ... for attribute '{name}'`. -/
  | valueErrorUnsupported (name : String)
  /-- `ValueError: value of attribute '{name}' must have length equal to 1`. -/
  | valueErrorLength (name : String)
  /-- `ValueError: expected Nonnegative value for attribute '{name}'`. -/
  | valueErrorNegative (name : String)
  /-- The `ValueError` raised by the builtin `bytes([value])` when the
  value exceeds 255. -/
  | valueErrorByteRange (name : String)
  /-- `AttributeError: attribute '{name}' unsupported on platform`. -/
  | attrUnsupported (name : String)
  /-- `AttributeError` from `Stty.set`, listing the unsupported keys. -/
  | attrUnsupportedSet (excess : List String)
  /-- `ValueError: JSON file does not contain termios data`. -/
  | missingTermios
  /-- `ValueError: JSON file does not contain winsize data`. -/
  | missingWinsize
  /-- `ValueError: JSON file does not contain the following necessary
  attributes: ...`. -/
  | missingAttrs (deficiency : List String)
  /-- The lookup failure (`KeyError`/`TypeError`) `fromfd` hits when a
  raw field does not decode to any symbolic value. -/
  | lookupError (name : String)
  /-- `ValueError: fd or path must be provided`. -/
  | fdAndPathNone
  /-- `ValueError: only one of fd or path must be provided`. -/
  | fdAndPathBoth
  deriving DecidableEq, Repr

/-- Outcome of a mutating method: normal return, or a propagating
exception together with the state of the object at the moment it
propagates (so partial mutation would be observable). -/
inductive SetResult where
  | ok (s : Stty)
  | err (e : PyErr) (s : Stty)
  deriving DecidableEq, Repr

/-- The final state, successful or not. -/
def SetResult.state : SetResult → Stty
  | .ok s => s
  | .err _ s => s

/-- The propagated exception, if any. -/
def SetResult.errOf : SetResult → Option PyErr
  | .ok _ => Option.none
  | .err e _ => some e

/-- The final state of a successful call. -/
def SetResult.getOk : SetResult → Option Stty
  | .ok s => some s
  | .err _ _ => Option.none

/-! ## `Stty.__setattr__`, branch by branch -/

/-- The boolean-flag branch (`name in _bool_d`) of `__setattr__`: set or
clear the mask bit, then cache the assigned value itself. -/
def Stty.boolSet (self : Stty) (name : String) (x : Nat × Int) (value : PyVal) :
    SetResult :=
  let w0 := self._termios.getWord x.1
  let w1 := if pyTruthy value then pyOr w0 x.2 else pyAndNot w0 x.2
  .ok { self with _termios := self._termios.setWord x.1 w1,
                  cache := dictSet self.cache name value }

/-- The enumerated-flag branch (`name in _num_d`): int-typed, member of
the value table; `&= ~mask` then `|= value`; caches the symbolic name. -/
def Stty.numSet (self : Stty) (name : String)
    (x : Nat × Int × List (Int × String)) (value : PyVal) : SetResult :=
  if !pyIsInt value then .err (.typeErrorInt name) self
  else
    match x.2.2.lookup (pyToInt value) with
    | Option.none => .err (.valueErrorUnsupported name) self
    | some nm =>
      .ok { self with
              _termios :=
                (self._termios.setWord x.1
                    (pyAndNot (self._termios.getWord x.1) x.2.1)).setWord x.1
                  (pyOr (pyAndNot (self._termios.getWord x.1) x.2.1) (pyToInt value)),
              cache := dictSet self.cache name (.str nm) }

/-- The speed branch (`name in _speed_d`): int-typed, a supported Baud
rate; stores the `B...` constant, caches the numeric rate. -/
def Stty.speedSet (self : Stty) (name : String) (idx : Nat) (value : PyVal) :
    SetResult :=
  if !pyIsInt value then .err (.typeErrorInt name) self
  else match _baud_d.lookup (pyToInt value) with
    | Option.none => .err (.valueErrorUnsupported name) self
    | some b =>
      .ok { self with _termios := self._termios.setWord idx b,
                      cache := dictSet self.cache name value }

/-- The control-character branch (`name in _cc_d`): bytes-typed of length
exactly 1; stores the byte at the entry's `cc` index, caches the bytes. -/
def Stty.ccSet (self : Stty) (name : String) (idx : Nat) (value : PyVal) :
    SetResult :=
  match value with
  | .bytes bs =>
    if bs.length ≠ 1 then .err (.valueErrorLength name) self
    else
      .ok { self with
              _termios := { self._termios with cc := self._termios.cc.set idx bs },
              cache := dictSet self.cache name value }
  | _ => .err (.typeErrorBytes name) self

/-- The non-canonical-count branch (`name in _noncanon_d`): int-typed and
nonnegative; `bytes([value])` then raises `ValueError` past 255, else the
byte is stored at the entry's `cc` index and the integer is cached. -/
def Stty.noncanonSet (self : Stty) (name : String) (idx : Nat) (value : PyVal) :
    SetResult :=
  if !pyIsInt value then .err (.typeErrorInt name) self
  else if pyToInt value < 0 then .err (.valueErrorNegative name) self
  else match pyBytesSingleton (pyToInt value) with
    | Option.none => .err (.valueErrorByteRange name) self
    | some b =>
      .ok { self with
              _termios := { self._termios with cc := self._termios.cc.set idx b },
              cache := dictSet self.cache name value }

/-- The window-dimension branch (`name in _winsz_d`): int-typed and
nonnegative; stores into the window block, caches the integer. -/
def Stty.winszSet (self : Stty) (name : String) (idx : Nat) (value : PyVal) :
    SetResult :=
  if !pyIsInt value then .err (.typeErrorInt name) self
  else if pyToInt value < 0 then .err (.valueErrorNegative name) self
  else
    .ok { self with _winsize := self._winsize.set idx (pyToInt value),
                    cache := dictSet self.cache name value }

/-- `Stty.__setattr__(self, name, value)`: the guard on the raw-block
names, then the category dispatch in source order, then the trailing
`AttributeError` for names absent from the catalog. -/
def Stty.setattr (self : Stty) (name : String) (value : PyVal) : SetResult :=
  if name = "_termios" ∨ name = "_winsize" then
    .err (.attrProtected name) self
  else match _bool_d.lookup name with
  | some x => self.boolSet name x value
  | Option.none => match _num_d.lookup name with
  | some x => self.numSet name x value
  | Option.none => match _speed_d.lookup name with
  | some i => self.speedSet name i value
  | Option.none => match _cc_d.lookup name with
  | some i => self.ccSet name i value
  | Option.none => match _noncanon_d.lookup name with
  | some i => self.noncanonSet name i value
  | Option.none => match _winsz_d.lookup name with
  | some i => self.winszSet name i value
  | Option.none => .err (.attrUnsupported name) self

/-! ## `Stty.set`, persistence, `fromfd`, `__init__` -/

/-- The application loop of `Stty.set`:
`for x in opts: self.__setattr__(x, opts[x])`, in caller-supplied order,
stopping at (and propagating) the first exception. -/
def Stty.setEach (self : Stty) : List (String × PyVal) → SetResult
  | [] => .ok self
  | (k, v) :: rest =>
    match self.setattr k v with
    | .ok s => s.setEach rest
    | .err e s => .err e s

/-- `Stty.set(self, **opts)`: compute `set(opts) - set(_available)`, raise
listing the whole excess if it is nonempty, otherwise apply every pair
with `__setattr__` semantics. -/
def Stty.set (self : Stty) (opts : List (String × PyVal)) : SetResult :=
  let excess := (opts.map Prod.fst).filter (fun k => decide (k ∉ _available))
  if excess = [] then self.setEach opts
  else .err (.attrUnsupportedSet excess) self

/-- The symbolic value `Stty.fromfd` derives for `name` from the raw
blocks, exactly as the per-category loops of the source compute it:
bit test for boolean flags, value-table lookup of the masked word for
enumerated flags, inverse Baud table for speeds, the `cc` entry for
control characters, `ord` of the `cc` entry for `min`/`time`, and the
window slot for `rows`/`cols`.  `none` models the lookup failure the
source would raise. -/
def derivedValue (t : TermiosRec) (w : List Int) (name : String) : Option PyVal :=
  match _bool_d.lookup name with
  | some x => some (.bool (Int.land (t.getWord x.1) x.2 != 0))
  | Option.none => match _num_d.lookup name with
  | some x => (x.2.2.lookup (Int.land (t.getWord x.1) x.2.1)).map .str
  | Option.none => match _speed_d.lookup name with
  | some i => (_baud_d_inverse.lookup (t.getWord i)).map .int
  | Option.none => match _cc_d.lookup name with
  | some i => (t.cc[i]?).map .bytes
  | Option.none => match _noncanon_d.lookup name with
  | some i =>
    match t.cc[i]? with
    | some [c] => some (.int c)
    | _ => Option.none
  | Option.none => match _winsz_d.lookup name with
  | some i => (w[i]?).map .int
  | Option.none => Option.none

/-- A terminal device as `fromfd` sees it: the raw attribute block
returned by `tcgetattr` and the window block from `tcgetwinsize`. -/
structure Device where
  tio : TermiosRec
  win : List Int
  deriving DecidableEq, Repr

/-- The derivation loops of `fromfd`: for each available name (in the
source's category order, which is exactly `_available`), derive the
symbolic value from the current raw blocks and feed it back through
`__setattr__`. -/
def Stty.fromfdLoop (self : Stty) : List String → SetResult
  | [] => .ok self
  | n :: rest =>
    match derivedValue self._termios self._winsize n with
    | Option.none => .err (.lookupError n) self
    | some v =>
      match self.setattr n v with
      | .ok s => s.fromfdLoop rest
      | .err e s => .err e s

/-- `Stty.fromfd(self, fd)`: install the raw blocks read from the device,
then re-derive every symbolic value through `__setattr__`. -/
def Stty.fromfd (self : Stty) (dev : Device) : SetResult :=
  Stty.fromfdLoop { self with _termios := dev.tio, _winsize := dev.win }
    _available

/-- The dictionary `Stty.save(path)` serializes: the `get()` result (one
entry per available attribute) plus the two reserved raw-block keys.  The
spec's persistence boundary (the JSON encoder/decoder) is an external
collaborator, modelled as the identity on this structure. -/
structure Snapshot where
  termios' : Option TermiosRec
  winsize' : Option (List Int)
  attrs : List (String × PyVal)
  deriving DecidableEq, Repr

/-- `Stty.save(self, path)`: `d = self.get()`, then
`d["_termios"] = self._termios; d["_winsize"] = self._winsize`. -/
def Stty.save (self : Stty) : Snapshot :=
  { termios' := some self._termios
    winsize' := some self._winsize
    attrs := _available.filterMap (fun x => (dictGet self.cache x).map ((x, ·))) }

/-- `Stty.load(self, path)`: require and install the raw termios block,
require (on a winsize-capable platform) and install the raw window block,
check that no platform-required attribute name is missing, then re-apply
every remaining key through `set`. -/
def Stty.load (self : Stty) (d : Snapshot) : SetResult :=
  match d.termios' with
  | Option.none => .err .missingTermios self
  | some t =>
    let s1 : Stty := { self with _termios := t }
    match d.winsize' with
    | Option.none => .err .missingWinsize s1
    | some w =>
      let s2 : Stty := { s1 with _winsize := w }
      let deficiency := _available.filter (fun x => decide (x ∉ d.attrs.map Prod.fst))
      if deficiency = [] then s2.set d.attrs
      else .err (.missingAttrs deficiency) s2

/-- `Stty.__init__(self, fd=None, path=None, **opts)`: exactly one of
`fd`/`path` must be given; then `fromfd`/`load`, then `set(**opts)`.  The
placeholder is the blank object before `__init__` has stored anything;
both `fromfd` and `load` overwrite its raw blocks before reading them. -/
def Stty.init (fd : Option Device) (path : Option Snapshot)
    (opts : List (String × PyVal)) : Except PyErr Stty :=
  if fd.isNone && path.isNone then .error .fdAndPathNone
  else if fd.isSome && path.isSome then .error .fdAndPathBoth
  else
    let blank : Stty :=
      { _termios := { words := [0, 0, 0, 0, 0, 0], cc := List.replicate 32 [0] },
        _winsize := [0, 0], cache := [] }
    let sourced : SetResult :=
      match fd with
      | some dev => blank.fromfd dev
      | Option.none =>
        match path with
        | some snap => blank.load snap
        | Option.none => .ok blank
    match sourced with
    | .err e _ => .error e
    | .ok s =>
      match s.set opts with
      | .err e _ => .error e
      | .ok s' => .ok s'

/-! ## A concrete, fully populated object

`termios0`/`winsize0` are the raw blocks of an ordinary Linux terminal
(ICRNL|IXON, OPOST|ONLCR, CS8|CREAD|CLOCAL, a canonical lflag, 9600 Baud,
the default control characters, a 24x80 window); `stty0` carries the
symbolic values derived from them, as an object returned by a successful
fetch would. -/

def termios0 : TermiosRec :=
  { words := [1280, 5, 2224, 35387, 13, 13]
    cc := [[3], [28], [127], [21], [4], [0], [1], [0], [17], [19], [26],
           [0], [18], [15], [23], [22], [0]] ++ List.replicate 15 [0] }

def winsize0 : List Int := [24, 80]

def stty0 : Stty :=
  { _termios := termios0
    _winsize := winsize0
    cache := _available.filterMap
      (fun x => (derivedValue termios0 winsize0 x).map ((x, ·))) }

/-- The object produced by the successful call `stty0.echo = False`. -/
def sEchoOff : Stty := (stty0.setattr "echo" (PyVal.bool false)).state

/-! ## Helper lemmas for the atomicity and batch theorems -/

/-- Writing one key of the cached-value dictionary reads back that value. -/
theorem dictGet_dictSet_self (c : List (String × PyVal)) (k : String) (v : PyVal) :
    dictGet (dictSet c k v) k = some v := by
  induction c with
  | nil => simp [dictSet, dictGet]
  | cons p rest ih =>
    obtain ⟨k₀, v₀⟩ := p
    by_cases hk : k₀ = k
    · subst hk
      simp [dictSet, dictGet]
    · simp [dictSet, dictGet, hk, ih]

/-- Writing one key of the cached-value dictionary leaves every other key
unread. -/
theorem dictGet_dictSet_ne (c : List (String × PyVal)) (k k' : String)
    (hne : k' ≠ k) (v : PyVal) :
    dictGet (dictSet c k v) k' = dictGet c k' := by
  induction c with
  | nil => simp [dictSet, dictGet, if_neg (Ne.symm hne)]
  | cons p rest ih =>
    obtain ⟨k₀, v₀⟩ := p
    by_cases hk : k₀ = k
    · subst hk
      simp [dictSet, dictGet, if_neg (Ne.symm hne)]
    · by_cases hk' : k₀ = k'
      · simp [dictSet, dictGet, hk, hk', hne]
      · simp [dictSet, dictGet, hk, hk', ih]

/-- At most one location of the raw blocks differs between `s` and `s'`:
a single word of the termios block (control-character array and window
block untouched), or a single entry of the control-character array, or a
single window dimension. -/
@[reducible] def RawDiffOne (s s' : Stty) : Prop :=
  (∃ i, s'._winsize = s._winsize ∧ s'._termios.cc = s._termios.cc ∧
      s'._termios.words.length = s._termios.words.length ∧
      ∀ j : Nat, j ≠ i → s'._termios.words[j]? = s._termios.words[j]?) ∨
  (∃ i, s'._winsize = s._winsize ∧ s'._termios.words = s._termios.words ∧
      s'._termios.cc.length = s._termios.cc.length ∧
      ∀ j : Nat, j ≠ i → s'._termios.cc[j]? = s._termios.cc[j]?) ∨
  (∃ i, s'._termios = s._termios ∧ s'._winsize.length = s._winsize.length ∧
      ∀ j : Nat, j ≠ i → s'._winsize[j]? = s._winsize[j]?)

/-- All cached symbolic values other than `name` agree. -/
@[reducible] def CacheAgreeExcept
    (c c' : List (String × PyVal)) (name : String) : Prop :=
  ∀ k, k ≠ name → dictGet c' k = dictGet c k

/-- The atomic-update contract of one `__setattr__` call on `name`: an
exception leaves the object exactly as it was, and a normal return
touches at most one raw location and exactly the one cached value. -/
@[reducible] def AtomicAt (s : Stty) (name : String) (r : SetResult) : Prop :=
  (∀ e s', r = .err e s' → s' = s) ∧
  (∀ s', r = .ok s' →
      RawDiffOne s s' ∧ CacheAgreeExcept s.cache s'.cache name ∧
      (dictGet s'.cache name).isSome)

theorem rawDiffOne_setWord (s : Stty) (i : Nat) (w : Int)
    (c : List (String × PyVal)) :
    RawDiffOne s { s with _termios := s._termios.setWord i w, cache := c } := by
  left
  exact ⟨i, rfl, rfl, by simp [TermiosRec.setWord],
    fun j hj => List.getElem?_set_ne (Ne.symm hj)⟩

theorem rawDiffOne_setWordTwice (s : Stty) (i : Nat) (w w' : Int)
    (c : List (String × PyVal)) :
    RawDiffOne s
      { s with _termios := (s._termios.setWord i w).setWord i w', cache := c } := by
  left
  refine ⟨i, rfl, rfl, by simp [TermiosRec.setWord], fun j hj => ?_⟩
  simp only [TermiosRec.setWord]
  rw [List.getElem?_set_ne (Ne.symm hj), List.getElem?_set_ne (Ne.symm hj)]

theorem rawDiffOne_setCC (s : Stty) (i : Nat) (b : List Nat)
    (c : List (String × PyVal)) :
    RawDiffOne s
      { s with _termios := { s._termios with cc := s._termios.cc.set i b },
               cache := c } := by
  right; left
  exact ⟨i, rfl, rfl, by simp, fun j hj => List.getElem?_set_ne (Ne.symm hj)⟩

theorem rawDiffOne_setWin (s : Stty) (i : Nat) (w : Int)
    (c : List (String × PyVal)) :
    RawDiffOne s { s with _winsize := s._winsize.set i w, cache := c } := by
  right; right
  exact ⟨i, rfl, by simp, fun j hj => List.getElem?_set_ne (Ne.symm hj)⟩

theorem cacheOk_dictSet (c : List (String × PyVal)) (name : String) (v : PyVal) :
    CacheAgreeExcept c (dictSet c name v) name ∧
      (dictGet (dictSet c name v) name).isSome := by
  constructor
  · intro k hk
    exact dictGet_dictSet_ne c name k hk v
  · simp [dictGet_dictSet_self]

theorem err_atomicAt (s : Stty) (name : String) (e0 : PyErr) :
    AtomicAt s name (.err e0 s) :=
  ⟨fun _ _ h => by cases h; rfl, fun _ h => by cases h⟩

theorem boolSet_atomicAt (s : Stty) (name : String) (x : Nat × Int) (v : PyVal) :
    AtomicAt s name (s.boolSet name x v) := by
  constructor
  · intro e s' h
    simp [Stty.boolSet] at h
  · intro s' h
    simp only [Stty.boolSet, SetResult.ok.injEq] at h
    subst h
    exact ⟨rawDiffOne_setWord s x.1 _ _, (cacheOk_dictSet s.cache name v).1,
      (cacheOk_dictSet s.cache name v).2⟩

theorem numSet_atomicAt (s : Stty) (name : String)
    (x : Nat × Int × List (Int × String)) (v : PyVal) :
    AtomicAt s name (s.numSet name x v) := by
  unfold Stty.numSet
  split
  · exact err_atomicAt s name _
  split
  · exact err_atomicAt s name _
  constructor
  · intro e s' h
    simp at h
  · intro s' h
    simp only [SetResult.ok.injEq] at h
    subst h
    exact ⟨rawDiffOne_setWordTwice s x.1 _ _ _,
      (cacheOk_dictSet s.cache name _).1, (cacheOk_dictSet s.cache name _).2⟩

theorem speedSet_atomicAt (s : Stty) (name : String) (idx : Nat) (v : PyVal) :
    AtomicAt s name (s.speedSet name idx v) := by
  unfold Stty.speedSet
  split
  · exact err_atomicAt s name _
  split
  · exact err_atomicAt s name _
  constructor
  · intro e s' h
    simp at h
  · intro s' h
    simp only [SetResult.ok.injEq] at h
    subst h
    exact ⟨rawDiffOne_setWord s idx _ _, (cacheOk_dictSet s.cache name v).1,
      (cacheOk_dictSet s.cache name v).2⟩

theorem ccSet_atomicAt (s : Stty) (name : String) (idx : Nat) (v : PyVal) :
    AtomicAt s name (s.ccSet name idx v) := by
  unfold Stty.ccSet
  split
  · split
    · exact err_atomicAt s name _
    · constructor
      · intro e s' h
        simp at h
      · intro s' h
        simp only [SetResult.ok.injEq] at h
        subst h
        exact ⟨rawDiffOne_setCC s idx _ _, (cacheOk_dictSet s.cache name _).1,
          (cacheOk_dictSet s.cache name _).2⟩
  · exact err_atomicAt s name _

theorem noncanonSet_atomicAt (s : Stty) (name : String) (idx : Nat) (v : PyVal) :
    AtomicAt s name (s.noncanonSet name idx v) := by
  unfold Stty.noncanonSet
  split
  · exact err_atomicAt s name _
  split
  · exact err_atomicAt s name _
  split
  · exact err_atomicAt s name _
  constructor
  · intro e s' h
    simp at h
  · intro s' h
    simp only [SetResult.ok.injEq] at h
    subst h
    exact ⟨rawDiffOne_setCC s idx _ _, (cacheOk_dictSet s.cache name v).1,
      (cacheOk_dictSet s.cache name v).2⟩

theorem winszSet_atomicAt (s : Stty) (name : String) (idx : Nat) (v : PyVal) :
    AtomicAt s name (s.winszSet name idx v) := by
  unfold Stty.winszSet
  split
  · exact err_atomicAt s name _
  split
  · exact err_atomicAt s name _
  constructor
  · intro e s' h
    simp at h
  · intro s' h
    simp only [SetResult.ok.injEq] at h
    subst h
    exact ⟨rawDiffOne_setWin s idx _ _, (cacheOk_dictSet s.cache name v).1,
      (cacheOk_dictSet s.cache name v).2⟩

theorem setattr_atomicAt (s : Stty) (name : String) (v : PyVal) :
    AtomicAt s name (s.setattr name v) := by
  unfold Stty.setattr
  split
  · exact err_atomicAt s name _
  repeat' split
  · exact boolSet_atomicAt s name _ v
  · exact numSet_atomicAt s name _ v
  · exact speedSet_atomicAt s name _ v
  · exact ccSet_atomicAt s name _ v
  · exact noncanonSet_atomicAt s name _ v
  · exact winszSet_atomicAt s name _ v
  · exact err_atomicAt s name _

/-- Reduction of the dispatch for the two non-canonical-count names. -/
theorem noncanon_domain (s : Stty) (name : String) (idx : Nat) (v : PyVal) :
    (pyIsInt v = false → s.noncanonSet name idx v = .err (.typeErrorInt name) s) ∧
    (∀ n : Int, v = .int n →
      (n < 0 → s.noncanonSet name idx v = .err (.valueErrorNegative name) s) ∧
      (0 ≤ n → 255 < n →
        s.noncanonSet name idx v = .err (.valueErrorByteRange name) s) ∧
      (0 ≤ n → n ≤ 255 →
        s.noncanonSet name idx v = .ok { s with
          _termios := { s._termios with cc := s._termios.cc.set idx [n.toNat] },
          cache := dictSet s.cache name v })) := by
  constructor
  · intro h
    simp [Stty.noncanonSet, h]
  · rintro n rfl
    refine ⟨?_, ?_, ?_⟩
    · intro hneg
      simp [Stty.noncanonSet, pyIsInt, pyToInt, hneg]
    · intro h0 hgt
      have h2 : pyBytesSingleton n = Option.none := by
        unfold pyBytesSingleton
        rw [if_neg (by omega : ¬(0 ≤ n ∧ n < 256))]
      simp [Stty.noncanonSet, pyIsInt, pyToInt, (by omega : ¬ n < 0), h2]
      omega
    · intro h0 h255
      have h2 : pyBytesSingleton n = some [n.toNat] := by
        unfold pyBytesSingleton
        rw [if_pos (by omega : 0 ≤ n ∧ n < 256)]
      simp [Stty.noncanonSet, pyIsInt, pyToInt, (by omega : ¬ n < 0), h2]
      omega

/-! ## Claim theorems -/

/-- C1: the round-trip claim fails on the code for boolean flags.  The
truthy string `"x"` is in the boolean domain and the call succeeds, but
the value read back is the raw `"x"` itself, not the normalized boolean
`True` the claim requires. -/
theorem c1_bool_roundtrip_not_normalized :
    ((stty0.setattr "echo" (PyVal.str "x")).getOk.bind
        (fun s => dictGet s.cache "echo")) = some (PyVal.str "x") ∧
    PyVal.str "x" ≠ PyVal.bool true := by
  exact ⟨rfl, by decide⟩

/-- C2: the caret-notation claim fails on the code.  The control-character
branch of `__setattr__` accepts only `bytes`; the two-character string
`"^C"` raises `TypeError` instead of resolving to byte 3. -/
theorem c2_cc_caret_rejected :
    stty0.setattr "intr" (PyVal.str "^C") = .err (.typeErrorBytes "intr") stty0 := by
  rfl

/-- C3: `set` is all-or-nothing over unknown names: with at least one
unknown key it raises carrying exactly the unknown keys and returns the
object unchanged; with all keys known it applies each pair through
`__setattr__` in caller order. -/
theorem c3_set_many_all_or_nothing (s : Stty) (opts : List (String × PyVal)) :
    ((∃ k, k ∈ opts.map Prod.fst ∧ k ∉ _available) →
      ∃ excess, s.set opts = .err (.attrUnsupportedSet excess) s ∧ excess ≠ [] ∧
        ∀ k, k ∈ excess ↔ (k ∈ opts.map Prod.fst ∧ k ∉ _available)) ∧
    ((∀ k ∈ opts.map Prod.fst, k ∈ _available) → s.set opts = s.setEach opts) := by
  constructor
  · rintro ⟨k, hk, hna⟩
    have hmem : k ∈ (opts.map Prod.fst).filter (fun k => decide (k ∉ _available)) :=
      List.mem_filter.mpr ⟨hk, by simpa using hna⟩
    have hne : (opts.map Prod.fst).filter (fun k => decide (k ∉ _available)) ≠ [] :=
      List.ne_nil_of_mem hmem
    refine ⟨_, ?_, hne, ?_⟩
    · simp only [Stty.set]
      rw [if_neg hne]
    · intro k'
      constructor
      · intro hk'
        have h := List.mem_filter.mp hk'
        exact ⟨h.1, by simpa using h.2⟩
      · rintro ⟨h1, h2⟩
        exact List.mem_filter.mpr ⟨h1, by simpa using h2⟩
  · intro hall
    have hnil : (opts.map Prod.fst).filter (fun k => decide (k ∉ _available)) = [] :=
      List.filter_eq_nil_iff.mpr (fun k hk => by simp [hall k hk])
    simp only [Stty.set]
    rw [if_pos hnil]

/-- Witness for C3: a batch with only the known name `echo` is applied;
a batch containing the unknown name `bogus` raises with the unknown key
listed and the object unchanged. -/
theorem c3_set_many_all_or_nothing_witness :
    stty0.set [("echo", PyVal.bool true)] = stty0.setEach [("echo", PyVal.bool true)] ∧
    stty0.set [("echo", PyVal.bool true), ("bogus", PyVal.int 1)] =
      .err (.attrUnsupportedSet ["bogus"]) stty0 := by
  refine ⟨(c3_set_many_all_or_nothing stty0 [("echo", PyVal.bool true)]).2 ?_, ?_⟩
  · intro k hk
    simp at hk
    simp [hk, _available, _bool_d]
  · obtain ⟨excess, heq, -, -⟩ :=
      (c3_set_many_all_or_nothing stty0
        [("echo", PyVal.bool true), ("bogus", PyVal.int 1)]).1
        ⟨"bogus", by decide, by decide⟩
    have hval : stty0.set [("echo", PyVal.bool true), ("bogus", PyVal.int 1)] =
        .err (.attrUnsupportedSet ["bogus"]) stty0 := by rfl
    exact hval

/-- C4: a single `__setattr__` call is atomic — on an exception the
object is exactly as before; on success at most one raw location changed,
and only the cached value for `name` was (re)written, to a present
value. -/
theorem c4_setattr_atomic (s : Stty) (name : String) (v : PyVal) :
    (∀ e s', s.setattr name v = .err e s' → s' = s) ∧
    (∀ s', s.setattr name v = .ok s' →
        RawDiffOne s s' ∧ CacheAgreeExcept s.cache s'.cache name ∧
        (dictGet s'.cache name).isSome) :=
  setattr_atomicAt s name v

/-- Witness for C4: the failing call on the unknown name `bogus` leaves
`stty0` unchanged, and the successful call `stty0.echo = False` satisfies
the one-location update contract. -/
theorem c4_setattr_atomic_witness :
    stty0 = stty0 ∧
    (RawDiffOne stty0 sEchoOff ∧
      CacheAgreeExcept stty0.cache sEchoOff.cache "echo" ∧
      (dictGet sEchoOff.cache "echo").isSome) :=
  ⟨(c4_setattr_atomic stty0 "bogus" (PyVal.int 0)).1
      (.attrUnsupported "bogus") stty0 (by rfl),
   (c4_setattr_atomic stty0 "echo" (PyVal.bool false)).2 sEchoOff (by rfl)⟩

/-- C5: restoring the snapshot of a fully populated object fails on this
code.  The snapshot is complete (it passes the missing-raw-block and
missing-attribute checks), but re-applying the cached enumerated value
`csize = "cs8"` through `set` hits the int-only type check of the
enumerated branch and raises `TypeError`, so `restore(snapshot(S))` never
reaches a matching state. -/
theorem c5_restore_of_snapshot_fails :
    (stty0.load stty0.save).errOf = some (.typeErrorInt "csize") := by
  rfl

/-- C6: the raw/symbolic consistency invariant fails on the code after the
valid call `stty0.echo = "x"`: the cached symbolic value is the raw string
`"x"`, while deriving `echo` fresh from the updated raw block (as `fromfd`
would) yields the normalized `True`. -/
theorem c6_cache_fresh_divergence :
    ((stty0.setattr "echo" (PyVal.str "x")).getOk.bind
        (fun s => dictGet s.cache "echo")) = some (PyVal.str "x") ∧
    ((stty0.setattr "echo" (PyVal.str "x")).getOk.bind
        (fun s => derivedValue s._termios s._winsize "echo")) =
      some (PyVal.bool true) := by
  exact ⟨rfl, rfl⟩

/-- C7: the enumerated-flag claim fails on the code for symbolic names:
`csize = "cs7"` raises `TypeError` (the branch accepts only ints), while
the raw-integer path does succeed and reads back as the symbolic name. -/
theorem c7_enum_symbolic_rejected :
    stty0.setattr "csize" (PyVal.str "cs7") = .err (.typeErrorInt "csize") stty0 ∧
    ((stty0.setattr "csize" (PyVal.int 32)).getOk.bind
        (fun s => dictGet s.cache "csize")) = some (PyVal.str "cs7") := by
  exact ⟨rfl, rfl⟩

/-- C8: for `min` and `time`, `__setattr__` accepts exactly the integers
0..255: non-integers raise `TypeError`, negative integers raise
`ValueError`, integers above 255 raise the `ValueError` of `bytes([v])`
(never silent truncation), and in-range integers store the single byte at
the entry's index in the control-character array and cache the integer. -/
theorem c8_min_time_domain (s : Stty) (name : String)
    (hname : name = "min" ∨ name = "time") (v : PyVal) :
    (pyIsInt v = false → s.setattr name v = .err (.typeErrorInt name) s) ∧
    (∀ n : Int, v = .int n →
      (n < 0 → s.setattr name v = .err (.valueErrorNegative name) s) ∧
      (0 ≤ n → 255 < n →
        s.setattr name v = .err (.valueErrorByteRange name) s) ∧
      (0 ≤ n → n ≤ 255 → ∃ idx, _noncanon_d.lookup name = some idx ∧
        s.setattr name v = .ok { s with
          _termios := { s._termios with cc := s._termios.cc.set idx [n.toNat] },
          cache := dictSet s.cache name v })) := by
  rcases hname with rfl | rfl
  · have hr : ∀ w, Stty.setattr s "min" w = s.noncanonSet "min" 6 w :=
      fun _ => rfl
    have base := noncanon_domain s "min" 6 v
    refine ⟨fun h => by rw [hr]; exact base.1 h, fun n hv => ?_⟩
    obtain ⟨b1, b2, b3⟩ := base.2 n hv
    exact ⟨fun hneg => by rw [hr]; exact b1 hneg,
           fun h0 hgt => by rw [hr]; exact b2 h0 hgt,
           fun h0 h255 => ⟨6, rfl, by rw [hr]; exact b3 h0 h255⟩⟩
  · have hr : ∀ w, Stty.setattr s "time" w = s.noncanonSet "time" 5 w :=
      fun _ => rfl
    have base := noncanon_domain s "time" 5 v
    refine ⟨fun h => by rw [hr]; exact base.1 h, fun n hv => ?_⟩
    obtain ⟨b1, b2, b3⟩ := base.2 n hv
    exact ⟨fun hneg => by rw [hr]; exact b1 hneg,
           fun h0 hgt => by rw [hr]; exact b2 h0 hgt,
           fun h0 h255 => ⟨5, rfl, by rw [hr]; exact b3 h0 h255⟩⟩

/-- Witness for C8 at concrete inputs: a string, a negative integer, an
integer above 255, and the in-range integer 7. -/
theorem c8_min_time_domain_witness :
    stty0.setattr "min" (PyVal.str "no") = .err (.typeErrorInt "min") stty0 ∧
    stty0.setattr "min" (PyVal.int (-1)) = .err (.valueErrorNegative "min") stty0 ∧
    stty0.setattr "time" (PyVal.int 300) =
      .err (.valueErrorByteRange "time") stty0 ∧
    stty0.setattr "min" (PyVal.int 7) = .ok { stty0 with
      _termios := { stty0._termios with cc := stty0._termios.cc.set 6 [7] },
      cache := dictSet stty0.cache "min" (PyVal.int 7) } := by
  refine ⟨(c8_min_time_domain stty0 "min" (Or.inl rfl) _).1 (by decide),
    ((c8_min_time_domain stty0 "min" (Or.inl rfl) _).2 (-1) rfl).1 (by decide),
    ((c8_min_time_domain stty0 "time" (Or.inr rfl) _).2 300 rfl).2.1
      (by decide) (by decide), ?_⟩
  obtain ⟨idx, hidx, heq⟩ :=
    ((c8_min_time_domain stty0 "min" (Or.inl rfl) _).2 7 rfl).2.2
      (by decide) (by decide)
  have h6 : idx = 6 := by
    have : some idx = some 6 := hidx.symm.trans rfl
    exact Option.some.inj this
  subst h6
  exact heq

/-- C9 counterexample: an Attribute Set cannot be created empty — calling
the constructor with neither a device nor a snapshot raises `ValueError`
instead of producing an object. -/
theorem c9_empty_create_rejected :
    Stty.init Option.none Option.none [] = .error PyErr.fdAndPathNone := by
  rfl

/-- C9 as amended: the constructor requires exactly one of the device and
the snapshot — creation from a device and creation from a saved snapshot
are the two lifecycle entry points (each then populated further through
`set`), and giving neither, or both, raises `ValueError`. -/
theorem c9_init_requires_exactly_one (opts : List (String × PyVal)) :
    Stty.init Option.none Option.none opts = .error PyErr.fdAndPathNone ∧
    ∀ (dev : Device) (snap : Snapshot),
      Stty.init (some dev) (some snap) opts = .error PyErr.fdAndPathBoth :=
  ⟨rfl, fun _ _ => rfl⟩

/-- C10: assigning to `_termios` or `_winsize` through the attribute
interface always raises `AttributeError` and returns the object exactly
unchanged, for every object and every value. -/
theorem c10_raw_blocks_protected (s : Stty) (name : String) (v : PyVal)
    (h : name = "_termios" ∨ name = "_winsize") :
    s.setattr name v = .err (.attrProtected name) s := by
  rcases h with rfl | rfl
  · rfl
  · rfl

/-- Witness for C10 at the two concrete raw-block names. -/
theorem c10_raw_blocks_protected_witness :
    stty0.setattr "_termios" (PyVal.int 0) =
      .err (.attrProtected "_termios") stty0 ∧
    stty0.setattr "_winsize" (PyVal.int 0) =
      .err (.attrProtected "_winsize") stty0 :=
  ⟨c10_raw_blocks_protected stty0 "_termios" (PyVal.int 0) (Or.inl rfl),
   c10_raw_blocks_protected stty0 "_winsize" (PyVal.int 0) (Or.inr rfl)⟩
